import Mathlib

/-!
# Verification of the passport-photo compliance engine and crop transformer

Shallow embedding of the geometric core of the passport-photo application:
the compliance evaluator (`checkCompliance`, `getComplianceSummary`) and the
crop-transform geometry (`cropToPassport`).  All pixel quantities are modelled
as real numbers; JavaScript `Math.atan2` is modelled by an explicit piecewise
definition over `Real.arctan` with the same case analysis as the IEEE
definition (signed zeros aside, which do not exist in `ℝ`).
-/

namespace PassportPhoto

open Real

/-- A 2D point in source-image pixel coordinates. -/
@[ext] structure Point where
  x : ℝ
  y : ℝ

/-- The detector's face rectangle (forehead-to-chin envelope). -/
structure BoundingBox where
  originX : ℝ
  originY : ℝ
  width : ℝ
  height : ℝ

/-- The four named landmarks supplied by the detector. -/
structure FaceLandmarks where
  leftEye : Point
  rightEye : Point
  nose : Point
  mouth : Point

/-- One detected face: bounding box, landmarks, confidence. -/
structure FaceDetectionResult where
  boundingBox : BoundingBox
  landmarks : FaceLandmarks
  confidence : ℝ

/-- Scalar metrics snapshot computed by the evaluator. -/
structure ComplianceMetrics where
  faceCount : ℕ
  headHeightPercent : ℝ
  eyeHeightPercent : ℝ
  headTiltDegrees : ℝ
  horizontalCenterOffset : ℝ

/-- One itemized pass/fail rule with its display strings. -/
structure ComplianceCheck where
  id : String
  label : String
  passed : Bool
  message : String

/-- Overall verdict: pass flag, ordered checks, metrics, optional face handoff. -/
structure ComplianceResult where
  passed : Bool
  checks : List ComplianceCheck
  metrics : ComplianceMetrics
  faceData : Option FaceDetectionResult

/-- Model of JavaScript `Math.atan2 y x` on the reals: the angle of the vector
`(x, y)`, in `(-π, π]`, via `Real.arctan` with the standard quadrant fixups. -/
noncomputable def atan2 (y x : ℝ) : ℝ :=
  if 0 < x then arctan (y / x)
  else if x < 0 then
    if 0 ≤ y then arctan (y / x) + π else arctan (y / x) - π
  else
    if 0 < y then π / 2 else if y < 0 then -(π / 2) else 0

/-- Angle from `p1` to `p2` in degrees, via `atan2` (source `calculateAngle`). -/
noncomputable def calculateAngle (p1 p2 : Point) : ℝ :=
  atan2 (p2.y - p1.y) (p2.x - p1.x) * 180 / π

/-- Rendering of the JS template piece `${Math.round(x)}`; `Math.round` is
`⌊x + 1/2⌋`, which is Mathlib's `round`. -/
noncomputable def fmtRound (x : ℝ) : String :=
  toString (round x)

/-- Rendering of `x.toFixed(1)` for the nonnegative magnitudes used in the
messages: round `10·x` to an integer `n` (ties up, as `toFixed` specifies)
and print `n/10 . n%10`. -/
noncomputable def toFixed1 (x : ℝ) : String :=
  let n := round (10 * x)
  toString (n / 10) ++ "." ++ toString (n.natAbs % 10)

/-- The compliance evaluator (source `checkCompliance`).  Mirrors the source
line by line; the five checks are appended in the source's fixed order and
rules 2–5 run only when exactly one face was detected. -/
noncomputable def checkCompliance (imageWidth imageHeight : ℝ)
    (faces : List FaceDetectionResult) : ComplianceResult :=
  let faceCountCheck : ComplianceCheck :=
    { id := "face-count"
      label := "Single Face Detected"
      passed := decide (faces.length = 1)
      message :=
        if faces.length = 0 then
          "No face detected. Please ensure your face is clearly visible."
        else if 1 < faces.length then
          toString faces.length ++ " faces detected. Only one person should be in the photo."
        else
          "One face detected ✓" }
  match faces with
  | [face] =>
    let boundingBox := face.boundingBox
    let landmarks := face.landmarks
    let headHeightPixels := boundingBox.height * 1.25
    let headHeightPercent := headHeightPixels / imageHeight * 100
    let minHeadPixels : ℝ := 150
    let headSizeCheck : ComplianceCheck :=
      { id := "head-size"
        label := "Head Size"
        passed := decide (headHeightPixels ≥ minHeadPixels)
        message :=
          if headHeightPixels < minHeadPixels then
            "Face too small (" ++ fmtRound headHeightPixels ++
              "px). Move closer to the camera for better quality."
          else
            "Head size sufficient (" ++ fmtRound headHeightPixels ++ "px) ✓" }
    let eyeCenterY := (landmarks.leftEye.y + landmarks.rightEye.y) / 2
    let eyeHeightFromBottom := imageHeight - eyeCenterY
    let eyeHeightPercent := eyeHeightFromBottom / imageHeight * 100
    -- Source: `const estimatedFullHead = boundingBox.height;` (the comment
    -- there claims the 1.25 factor is already included, but it is not).
    let estimatedFullHead := boundingBox.height
    let targetHeadPercent : ℝ := 0.595
    let cropSourceHeight := estimatedFullHead / targetHeadPercent
    let targetEyeFromTop := cropSourceHeight * (1 - 0.625)
    let neededAboveEyes := targetEyeFromTop
    let availableAboveEyes := eyeCenterY
    let neededBelowEyes := cropSourceHeight - targetEyeFromTop
    let availableBelowEyes := imageHeight - eyeCenterY
    let hasEnoughMargin :=
      decide (availableAboveEyes ≥ neededAboveEyes * 0.95) &&
        decide (availableBelowEyes ≥ neededBelowEyes * 0.95)
    let eyeHeightCheck : ComplianceCheck :=
      { id := "eye-height"
        label := "Framing Margin"
        passed := hasEnoughMargin
        message :=
          if hasEnoughMargin then
            "Sufficient framing margin for crop ✓"
          else if availableAboveEyes < neededAboveEyes * 0.95 then
            "Not enough space above head. Move down or step back from the camera."
          else
            "Not enough space below chin. Move up or step back from the camera." }
    let eyeAngle := calculateAngle landmarks.leftEye landmarks.rightEye
    let headTiltDegrees := if |eyeAngle| > 90 then 180 - |eyeAngle| else |eyeAngle|
    let headTiltCheck : ComplianceCheck :=
      { id := "head-tilt"
        label := "Head Alignment"
        passed := decide (headTiltDegrees ≤ 5)
        message :=
          if headTiltDegrees > 5 then
            "Head is tilted " ++ toFixed1 headTiltDegrees ++ "°. Keep your head level."
          else
            "Head alignment correct (tilt: " ++ toFixed1 headTiltDegrees ++ "°) ✓" }
    let faceCenterX := boundingBox.originX + boundingBox.width / 2
    let imageCenterX := imageWidth / 2
    let horizontalOffset := |faceCenterX - imageCenterX|
    let horizontalOffsetPercent := horizontalOffset / imageWidth * 100
    let centeringCheck : ComplianceCheck :=
      { id := "horizontal-centering"
        label := "Horizontal Centering"
        passed := decide (horizontalOffsetPercent ≤ 10)
        message :=
          if horizontalOffsetPercent > 10 then
            if faceCenterX < imageCenterX then
              "Face too far left. Center yourself in the frame."
            else
              "Face too far right. Center yourself in the frame."
          else
            "Face centered horizontally ✓" }
    let checks :=
      [faceCountCheck, headSizeCheck, eyeHeightCheck, headTiltCheck, centeringCheck]
    { passed := checks.all fun c => c.passed
      checks := checks
      metrics :=
        { faceCount := 1
          headHeightPercent := headHeightPercent
          eyeHeightPercent := eyeHeightPercent
          headTiltDegrees := headTiltDegrees
          horizontalCenterOffset := horizontalOffsetPercent }
      faceData := some face }
  | _ =>
    { passed := false
      checks := [faceCountCheck]
      metrics :=
        { faceCount := faces.length
          headHeightPercent := 0
          eyeHeightPercent := 0
          headTiltDegrees := 0
          horizontalCenterOffset := 0 }
      faceData := none }

/-- Summary string for a compliance result (source `getComplianceSummary`). -/
def getComplianceSummary (result : ComplianceResult) : String :=
  if result.passed then
    "Photo meets all US passport requirements ✓"
  else
    let failedCount := (result.checks.filter fun c => !c.passed).length
    toString failedCount ++ " requirement" ++
      (if 1 < failedCount then "s" else "") ++ " not met"

/-- The scale factor of the crop: target head height (600 × 0.595) over the
estimated current head height (bounding box × 1.25). -/
noncomputable def cropScale (faceData : FaceDetectionResult) : ℝ :=
  (600 * 0.595) / (faceData.boundingBox.height * 1.25)

/-- Side length of the ideal square source window: `outputSize / scale`. -/
noncomputable def sourceCropSide (faceData : FaceDetectionResult) : ℝ :=
  600 / cropScale faceData

/-- The source rectangle actually drawn from (x, y, width, height). -/
structure CropRect where
  x : ℝ
  y : ℝ
  w : ℝ
  h : ℝ

/-- Geometry of `cropToPassport`: the source rectangle the crop draws from,
after origin clamping and the final width/height adjustment.  The canvas
allocation, white fill and `drawImage` call are rendering I/O and carry no
further geometry. -/
noncomputable def cropToPassport (sourceWidth sourceHeight : ℝ)
    (faceData : FaceDetectionResult) : CropRect :=
  let outputSize : ℝ := 600
  let eyeCenterY := (faceData.landmarks.leftEye.y + faceData.landmarks.rightEye.y) / 2
  let eyeCenterX := (faceData.landmarks.leftEye.x + faceData.landmarks.rightEye.x) / 2
  let targetEyeHeightFromBottom := outputSize * 0.625
  let scale := cropScale faceData
  let sourceCropWidth := outputSize / scale
  let sourceCropHeight := outputSize / scale
  let idealCropX := eyeCenterX - sourceCropWidth / 2
  let idealCropY := eyeCenterY - (outputSize - targetEyeHeightFromBottom) / scale
  let sourceCropX := max 0 (min idealCropX (sourceWidth - sourceCropWidth))
  let sourceCropY := max 0 (min idealCropY (sourceHeight - sourceCropHeight))
  let actualCropWidth := min sourceCropWidth (sourceWidth - sourceCropX)
  let actualCropHeight := min sourceCropHeight (sourceHeight - sourceCropY)
  { x := sourceCropX, y := sourceCropY, w := actualCropWidth, h := actualCropHeight }

/-- The framing-margin condition as the spec derives it: full head estimated
as `boundingBox.height × 1.25`, crop source height `fullHead / 0.595`, split
37.5% above / 62.5% below the eye line, each side compared with 5% slack. -/
def specFramingMargin (imageHeight : ℝ) (face : FaceDetectionResult) : Prop :=
  let eyeCenterY := (face.landmarks.leftEye.y + face.landmarks.rightEye.y) / 2
  let cropSourceHeight := face.boundingBox.height * 1.25 / 0.595
  cropSourceHeight * 0.375 * 0.95 ≤ eyeCenterY ∧
    cropSourceHeight * 0.625 * 0.95 ≤ imageHeight - eyeCenterY

/-- A face with its eye fields exchanged (used to state order-independence of
the tilt computation). -/
def swapEyes (face : FaceDetectionResult) : FaceDetectionResult :=
  { face with
    landmarks :=
      { face.landmarks with
        leftEye := face.landmarks.rightEye
        rightEye := face.landmarks.leftEye } }

/-- Sample face for a compliant 1000×1000 photo: bounding box 300×300 centered
horizontally, level eyes at y = 450. -/
def sampleFace : FaceDetectionResult :=
  { boundingBox := { originX := 350, originY := 300, width := 300, height := 300 }
    landmarks :=
      { leftEye := { x := 430, y := 450 }
        rightEye := { x := 570, y := 450 }
        nose := { x := 500, y := 500 }
        mouth := { x := 500, y := 550 } }
    confidence := 0.9 }

/-- Sample face whose ideal crop window (≈630 px) exceeds a 500 px source. -/
def edgeFace : FaceDetectionResult :=
  { boundingBox := { originX := 100, originY := 100, width := 300, height := 300 }
    landmarks :=
      { leftEye := { x := 200, y := 250 }
        rightEye := { x := 300, y := 250 }
        nose := { x := 250, y := 300 }
        mouth := { x := 250, y := 350 } }
    confidence := 0.9 }

/-- Sample face with eyes at y = 200 in a 1000×700 image: enough margin for
the code's framing formula but not for the spec's (×1.25) formula. -/
def marginFace : FaceDetectionResult :=
  { boundingBox := { originX := 350, originY := 50, width := 300, height := 300 }
    landmarks :=
      { leftEye := { x := 430, y := 200 }
        rightEye := { x := 570, y := 200 }
        nose := { x := 500, y := 280 }
        mouth := { x := 500, y := 330 } }
    confidence := 0.9 }

/-- Sample face with bounding-box height exactly 120 (estimated head 150). -/
def boundaryFaceHi : FaceDetectionResult :=
  { boundingBox := { originX := 440, originY := 300, width := 120, height := 120 }
    landmarks :=
      { leftEye := { x := 470, y := 360 }
        rightEye := { x := 530, y := 360 }
        nose := { x := 500, y := 380 }
        mouth := { x := 500, y := 400 } }
    confidence := 0.9 }

/-- Sample face with bounding-box height 119.99 (estimated head 149.9875). -/
def boundaryFaceLo : FaceDetectionResult :=
  { boundingBox := { originX := 440, originY := 300, width := 120, height := 119.99 }
    landmarks :=
      { leftEye := { x := 470, y := 360 }
        rightEye := { x := 530, y := 360 }
        nose := { x := 500, y := 380 }
        mouth := { x := 500, y := 400 } }
    confidence := 0.9 }

/-! ### Helper lemmas about `atan2` and the tilt normalization -/

lemma arctan_nonneg_of {t : ℝ} (h : 0 ≤ t) : 0 ≤ arctan t := by
  have := arctan_strictMono.monotone h
  simpa [arctan_zero] using this

lemma arctan_nonpos_of {t : ℝ} (h : t ≤ 0) : arctan t ≤ 0 := by
  have := arctan_strictMono.monotone h
  simpa [arctan_zero] using this

lemma abs_arctan_lt_pi_div_two (t : ℝ) : |arctan t| < π / 2 :=
  abs_lt.mpr ⟨(arctan_mem_Ioo t).1, (arctan_mem_Ioo t).2⟩

lemma atan2_x_pos (y x : ℝ) (hx : 0 < x) : atan2 y x = arctan (y / x) := by
  rw [atan2, if_pos hx]

lemma atan2_x_neg_y_nonneg (y x : ℝ) (hx : x < 0) (hy : 0 ≤ y) :
    atan2 y x = arctan (y / x) + π := by
  rw [atan2, if_neg (not_lt.mpr hx.le), if_pos hx, if_pos hy]

lemma atan2_x_neg_y_neg (y x : ℝ) (hx : x < 0) (hy : y < 0) :
    atan2 y x = arctan (y / x) - π := by
  rw [atan2, if_neg (not_lt.mpr hx.le), if_pos hx, if_neg (not_le.mpr hy)]

lemma atan2_x_zero (y : ℝ) :
    atan2 y 0 = if 0 < y then π / 2 else if y < 0 then -(π / 2) else 0 := by
  rw [atan2, if_neg (lt_irrefl 0), if_neg (lt_irrefl 0)]

/-- The magnitude of `atan2` never exceeds `π`. -/
lemma abs_atan2_le_pi (y x : ℝ) : |atan2 y x| ≤ π := by
  have hpi := pi_pos
  rcases lt_trichotomy x 0 with hx | hx | hx
  · have hb := abs_arctan_lt_pi_div_two (y / x)
    rw [abs_lt] at hb
    rcases le_or_lt 0 y with hy | hy
    · have ha : arctan (y / x) ≤ 0 :=
        arctan_nonpos_of (div_nonpos_of_nonneg_of_nonpos hy hx.le)
      rw [atan2_x_neg_y_nonneg y x hx hy, abs_le]
      constructor <;> linarith
    · have ha : 0 ≤ arctan (y / x) :=
        arctan_nonneg_of (le_of_lt (div_pos_of_neg_of_neg hy hx))
      rw [atan2_x_neg_y_neg y x hx hy, abs_le]
      constructor <;> linarith
  · subst hx
    rw [atan2_x_zero]
    split_ifs <;> rw [abs_le] <;> constructor <;> linarith
  · have hb := abs_arctan_lt_pi_div_two (y / x)
    rw [abs_lt] at hb
    rw [atan2_x_pos y x hx, abs_le]
    constructor <;> linarith

/-- Negating the input vector flips the `atan2` magnitude to its supplement. -/
lemma abs_atan2_neg_neg (y x : ℝ) (h : x ≠ 0 ∨ y ≠ 0) :
    |atan2 (-y) (-x)| = π - |atan2 y x| := by
  have hpi := pi_pos
  rcases lt_trichotomy x 0 with hx | hx | hx
  · have hxneg : 0 < -x := by linarith
    have hdiv : (-y) / (-x) = y / x := neg_div_neg_eq y x
    have hb := abs_arctan_lt_pi_div_two (y / x)
    rw [abs_lt] at hb
    rw [atan2_x_pos (-y) (-x) hxneg, hdiv]
    rcases le_or_lt 0 y with hy | hy
    · rw [atan2_x_neg_y_nonneg y x hx hy]
      have ha : arctan (y / x) ≤ 0 :=
        arctan_nonpos_of (div_nonpos_of_nonneg_of_nonpos hy hx.le)
      rw [abs_of_nonpos ha, abs_of_nonneg (by linarith : (0:ℝ) ≤ arctan (y / x) + π)]
      ring
    · rw [atan2_x_neg_y_neg y x hx hy]
      have ha : 0 ≤ arctan (y / x) :=
        arctan_nonneg_of (le_of_lt (div_pos_of_neg_of_neg hy hx))
      rw [abs_of_nonneg ha, abs_of_nonpos (by linarith : arctan (y / x) - π ≤ 0)]
      ring
  · subst hx
    rcases h with hx0 | hy0
    · exact absurd rfl hx0
    · rw [neg_zero, atan2_x_zero, atan2_x_zero]
      rcases lt_trichotomy y 0 with hy | hy | hy
      · rw [if_pos (by linarith : 0 < -y), if_neg (not_lt.mpr hy.le), if_pos hy]
        rw [abs_of_nonneg (by linarith), abs_of_nonpos (by linarith)]
        ring
      · exact absurd hy hy0
      · rw [if_neg (by linarith : ¬ 0 < -y), if_pos (by linarith : -y < 0), if_pos hy]
        rw [abs_of_nonpos (by linarith), abs_of_nonneg (by linarith)]
        ring
  · have hxneg : -x < 0 := by linarith
    have hdiv : (-y) / (-x) = y / x := neg_div_neg_eq y x
    have hb := abs_arctan_lt_pi_div_two (y / x)
    rw [abs_lt] at hb
    rw [atan2_x_pos y x hx]
    rcases le_or_lt y 0 with hy | hy
    · rw [atan2_x_neg_y_nonneg (-y) (-x) hxneg (by linarith), hdiv]
      have ha : arctan (y / x) ≤ 0 :=
        arctan_nonpos_of (div_nonpos_of_nonpos_of_nonneg hy hx.le)
      rw [abs_of_nonpos ha, abs_of_nonneg (by linarith : (0:ℝ) ≤ arctan (y / x) + π)]
      ring
    · rw [atan2_x_neg_y_neg (-y) (-x) hxneg (by linarith), hdiv]
      have ha : 0 ≤ arctan (y / x) := arctan_nonneg_of (le_of_lt (div_pos hy hx))
      rw [abs_of_nonneg ha, abs_of_nonpos (by linarith : arctan (y / x) - π ≤ 0)]
      ring

/-- The tilt normalization gives equal results on angles with supplementary
magnitudes. -/
lemma normalize_of_abs_supplement {A B : ℝ} (h : |B| = 180 - |A|) :
    (if |A| > 90 then 180 - |A| else |A|) = (if |B| > 90 then 180 - |B| else |B|) := by
  have hA := abs_nonneg A
  have hB := abs_nonneg B
  split_ifs <;> linarith

/-- The tilt normalization lands in `[0, 90]` whenever the input magnitude is
at most 180 degrees. -/
lemma normalize_mem_Icc {A : ℝ} (h : |A| ≤ 180) :
    0 ≤ (if |A| > 90 then 180 - |A| else |A|) ∧
      (if |A| > 90 then 180 - |A| else |A|) ≤ 90 := by
  have hA := abs_nonneg A
  split_ifs <;> constructor <;> linarith

/-- In the single-face branch `metrics.headTiltDegrees` is the normalized
eye angle. -/
lemma checkCompliance_single_tilt (w h : ℝ) (face : FaceDetectionResult) :
    (checkCompliance w h [face]).metrics.headTiltDegrees =
      (if |calculateAngle face.landmarks.leftEye face.landmarks.rightEye| > 90
        then 180 - |calculateAngle face.landmarks.leftEye face.landmarks.rightEye|
        else |calculateAngle face.landmarks.leftEye face.landmarks.rightEye|) := rfl

/-- Swapping the two points supplements the magnitude of `calculateAngle`. -/
lemma abs_calculateAngle_swap (p q : Point) (h : p ≠ q) :
    |calculateAngle q p| = 180 - |calculateAngle p q| := by
  have hpi := pi_pos
  have hne : q.x - p.x ≠ 0 ∨ q.y - p.y ≠ 0 := by
    by_contra hc
    push_neg at hc
    obtain ⟨hx, hy⟩ := hc
    exact h (Point.ext (sub_eq_zero.mp hx).symm (sub_eq_zero.mp hy).symm)
  have hsuby : p.y - q.y = -(q.y - p.y) := by ring
  have hsubx : p.x - q.x = -(q.x - p.x) := by ring
  rw [calculateAngle, calculateAngle, hsuby, hsubx]
  rw [abs_div, abs_div, abs_mul, abs_mul, abs_of_pos hpi,
    abs_of_pos (show (0:ℝ) < 180 by norm_num)]
  rw [abs_atan2_neg_neg _ _ hne]
  field_simp
  ring

/-- C7: the computed head tilt is invariant under exchanging the left-eye and
right-eye landmarks, for any face whose two eye points are distinct. -/
theorem headTilt_swap_invariant (w h : ℝ) (face : FaceDetectionResult)
    (hne : face.landmarks.leftEye ≠ face.landmarks.rightEye) :
    (checkCompliance w h [swapEyes face]).metrics.headTiltDegrees =
      (checkCompliance w h [face]).metrics.headTiltDegrees := by
  rw [checkCompliance_single_tilt, checkCompliance_single_tilt]
  have hswl : (swapEyes face).landmarks.leftEye = face.landmarks.rightEye := rfl
  have hswr : (swapEyes face).landmarks.rightEye = face.landmarks.leftEye := rfl
  rw [hswl, hswr]
  exact (normalize_of_abs_supplement (abs_calculateAngle_swap _ _ hne)).symm

/-- Witness for C7 at a concrete face with distinct eye points. -/
theorem headTilt_swap_invariant_witness :
    sampleFace.landmarks.leftEye ≠ sampleFace.landmarks.rightEye ∧
      (checkCompliance 1000 1000 [swapEyes sampleFace]).metrics.headTiltDegrees =
        (checkCompliance 1000 1000 [sampleFace]).metrics.headTiltDegrees :=
  ⟨by norm_num [sampleFace], headTilt_swap_invariant 1000 1000 sampleFace
    (by norm_num [sampleFace])⟩

/-- C10: for any single-face evaluation the reported head tilt lies in
`[0, 90]` degrees. -/
theorem headTilt_in_range (w h : ℝ) (face : FaceDetectionResult) :
    0 ≤ (checkCompliance w h [face]).metrics.headTiltDegrees ∧
      (checkCompliance w h [face]).metrics.headTiltDegrees ≤ 90 := by
  rw [checkCompliance_single_tilt]
  apply normalize_mem_Icc
  rw [calculateAngle, abs_div, abs_mul, abs_of_pos pi_pos,
    abs_of_pos (show (0:ℝ) < 180 by norm_num)]
  have hb := abs_atan2_le_pi
    (face.landmarks.rightEye.y - face.landmarks.leftEye.y)
    (face.landmarks.rightEye.x - face.landmarks.leftEye.x)
  rw [div_le_iff₀ pi_pos]
  linarith

/-- C2: when the face count differs from one the evaluator fails with only the
face-count check, zeroed metrics and no face handoff; with exactly one face
the detected face is always handed off in `faceData`. -/
theorem faceCount_gating (w h : ℝ) (faces : List FaceDetectionResult) :
    (faces.length ≠ 1 →
      (checkCompliance w h faces).passed = false ∧
      ((checkCompliance w h faces).checks.map fun c => c.id) = ["face-count"] ∧
      (checkCompliance w h faces).metrics =
        ⟨faces.length, 0, 0, 0, 0⟩ ∧
      (checkCompliance w h faces).faceData = none) ∧
    (∀ face, faces = [face] →
      (checkCompliance w h faces).faceData = some face) := by
  constructor
  · intro hlen
    match faces, hlen with
    | [], _ => exact ⟨rfl, rfl, rfl, rfl⟩
    | _ :: _ :: _, _ => exact ⟨rfl, rfl, rfl, rfl⟩
    | [face], hlen => exact absurd rfl hlen
  · intro face hf
    subst hf
    rfl

/-- Witness for C2: a zero-face input is gated; a one-face input hands the
face off. -/
theorem faceCount_gating_witness :
    (([] : List FaceDetectionResult).length ≠ 1 ∧
      (checkCompliance 100 100 ([] : List FaceDetectionResult)).passed = false) ∧
    (checkCompliance 50 50 [sampleFace]).faceData = some sampleFace :=
  ⟨⟨by decide, ((faceCount_gating 100 100 []).1 (by decide)).1⟩,
    (faceCount_gating 50 50 [sampleFace]).2 sampleFace rfl⟩

/-- C9: the evaluator is deterministic — two runs on the same inputs agree in
every field of the result. -/
theorem checkCompliance_deterministic (w h : ℝ) (faces : List FaceDetectionResult) :
    (checkCompliance w h faces).passed = (checkCompliance w h faces).passed ∧
    (checkCompliance w h faces).checks = (checkCompliance w h faces).checks ∧
    (checkCompliance w h faces).metrics = (checkCompliance w h faces).metrics ∧
    (checkCompliance w h faces).faceData = (checkCompliance w h faces).faceData :=
  ⟨rfl, rfl, rfl, rfl⟩

/-- Arithmetic core of the clamp-containment argument: origin is clamped
nonnegative, and the drawn extent never reaches past the source edge. -/
lemma clamp_sum_le (a b sw : ℝ) :
    max 0 (min a (sw - b)) + min b (sw - max 0 (min a (sw - b))) ≤ sw := by
  have hm := min_le_right b (sw - max 0 (min a (sw - b)))
  linarith

/-- Arithmetic core of the translate-only clamp: if the window side fits, the
clamped origin stays in `[0, w - s]` and the drawn extent keeps the side. -/
lemma clamp_keeps_side (s w i : ℝ) (h : s ≤ w) :
    min s (w - max 0 (min i (w - s))) = s ∧
    0 ≤ max 0 (min i (w - s)) ∧ max 0 (min i (w - s)) ≤ w - s := by
  have h1 : max 0 (min i (w - s)) ≤ w - s :=
    max_le (by linarith) (min_le_right _ _)
  exact ⟨min_eq_left (by linarith), le_max_left _ _, h1⟩

/-- C3: the source rectangle actually drawn from always lies inside
`[0, sourceWidth] × [0, sourceHeight]`. -/
theorem crop_window_within_bounds (sw sh : ℝ) (face : FaceDetectionResult)
    (_hw : 0 < sw) (_hh : 0 < sh) :
    0 ≤ (cropToPassport sw sh face).x ∧
    0 ≤ (cropToPassport sw sh face).y ∧
    (cropToPassport sw sh face).x + (cropToPassport sw sh face).w ≤ sw ∧
    (cropToPassport sw sh face).y + (cropToPassport sw sh face).h ≤ sh := by
  refine ⟨le_max_left _ _, le_max_left _ _, clamp_sum_le _ _ _, clamp_sum_le _ _ _⟩

/-- Witness for C3 at a concrete positive-size source and face. -/
theorem crop_window_within_bounds_witness :
    ((0:ℝ) < 1000 ∧ (0:ℝ) < 800) ∧
    (0 ≤ (cropToPassport 1000 800 sampleFace).x ∧
      0 ≤ (cropToPassport 1000 800 sampleFace).y ∧
      (cropToPassport 1000 800 sampleFace).x + (cropToPassport 1000 800 sampleFace).w ≤ 1000 ∧
      (cropToPassport 1000 800 sampleFace).y + (cropToPassport 1000 800 sampleFace).h ≤ 800) :=
  ⟨⟨by norm_num, by norm_num⟩,
    crop_window_within_bounds 1000 800 sampleFace (by norm_num) (by norm_num)⟩

/-- Counterexample to C4 as stated: with a 500×500 source and `edgeFace` the
ideal window (≈630 px) is wider than the source, so the drawn window is
resized, not merely translated. -/
theorem crop_clamp_resizes_counterexample :
    (cropToPassport 500 500 edgeFace).w ≠ sourceCropSide edgeFace := by
  norm_num [cropToPassport, cropScale, sourceCropSide, edgeFace, min_def, max_def]

/-- C4 (amended): whenever the ideal square window fits inside the source in
both axes, clamping only translates it — the drawn window keeps the full side
length `outputSize / scale` and only its origin is clamped to
`[0, sourceDimension − windowSide]`. -/
theorem crop_clamp_translates_when_window_fits (sw sh : ℝ)
    (face : FaceDetectionResult)
    (hw : sourceCropSide face ≤ sw) (hh : sourceCropSide face ≤ sh) :
    (cropToPassport sw sh face).w = sourceCropSide face ∧
    (cropToPassport sw sh face).h = sourceCropSide face ∧
    0 ≤ (cropToPassport sw sh face).x ∧
    (cropToPassport sw sh face).x ≤ sw - sourceCropSide face ∧
    0 ≤ (cropToPassport sw sh face).y ∧
    (cropToPassport sw sh face).y ≤ sh - sourceCropSide face := by
  have HX := clamp_keeps_side (sourceCropSide face) sw
    ((face.landmarks.leftEye.x + face.landmarks.rightEye.x) / 2 -
      600 / cropScale face / 2) hw
  have HY := clamp_keeps_side (sourceCropSide face) sh
    ((face.landmarks.leftEye.y + face.landmarks.rightEye.y) / 2 -
      (600 - 600 * 0.625) / cropScale face) hh
  exact ⟨HX.1, HY.1, HX.2.1, HX.2.2, HY.2.1, HY.2.2⟩

/-- Witness for C4 (amended) at a source large enough for the ideal window. -/
theorem crop_clamp_translates_witness :
    (sourceCropSide edgeFace ≤ 2000 ∧ sourceCropSide edgeFace ≤ 1500) ∧
    ((cropToPassport 2000 1500 edgeFace).w = sourceCropSide edgeFace ∧
      (cropToPassport 2000 1500 edgeFace).h = sourceCropSide edgeFace ∧
      0 ≤ (cropToPassport 2000 1500 edgeFace).x ∧
      (cropToPassport 2000 1500 edgeFace).x ≤ 2000 - sourceCropSide edgeFace ∧
      0 ≤ (cropToPassport 2000 1500 edgeFace).y ∧
      (cropToPassport 2000 1500 edgeFace).y ≤ 1500 - sourceCropSide edgeFace) :=
  ⟨⟨by norm_num [sourceCropSide, cropScale, edgeFace],
    by norm_num [sourceCropSide, cropScale, edgeFace]⟩,
    crop_clamp_translates_when_window_fits 2000 1500 edgeFace
      (by norm_num [sourceCropSide, cropScale, edgeFace])
      (by norm_num [sourceCropSide, cropScale, edgeFace])⟩

/-- Counterexample to C5 as stated: on a zero-face result the face-count check
fails, yet the summary is the count string, not the face-count message. -/
theorem summary_not_failing_message_counterexample :
    ((checkCompliance 100 100 ([] : List FaceDetectionResult)).checks.map
        fun c => (c.id, c.passed)) = [("face-count", false)] ∧
    getComplianceSummary (checkCompliance 100 100 ([] : List FaceDetectionResult)) ≠
      "No face detected. Please ensure your face is clearly visible." := by
  constructor
  · rfl
  · decide

/-- C5 (amended): for a failed result the summary is the failing-check count
rendered as a requirements-not-met string, independent of which checks failed. -/
theorem summary_counts_failed_checks (r : ComplianceResult)
    (h : r.passed = false) :
    getComplianceSummary r =
      toString (r.checks.filter fun c => !c.passed).length ++ " requirement" ++
        (if 1 < (r.checks.filter fun c => !c.passed).length then "s" else "") ++
        " not met" := by
  simp [getComplianceSummary, h]

/-- Witness for C5 (amended) on a concrete failed evaluation. -/
theorem summary_counts_failed_checks_witness :
    (checkCompliance 200 200 ([] : List FaceDetectionResult)).passed = false ∧
    getComplianceSummary (checkCompliance 200 200 ([] : List FaceDetectionResult)) =
      toString ((checkCompliance 200 200 ([] : List FaceDetectionResult)).checks.filter
          fun c => !c.passed).length ++ " requirement" ++
        (if 1 < ((checkCompliance 200 200 ([] : List FaceDetectionResult)).checks.filter
            fun c => !c.passed).length then "s" else "") ++ " not met" :=
  ⟨rfl, summary_counts_failed_checks (checkCompliance 200 200 []) rfl⟩

/-- In the single-face branch, the second check is the head-size check with
its decided threshold comparison. -/
lemma checkCompliance_single_headSize (w h : ℝ) (face : FaceDetectionResult) :
    (checkCompliance w h [face]).checks[1]? = some
      { id := "head-size"
        label := "Head Size"
        passed := decide (face.boundingBox.height * 1.25 ≥ 150)
        message :=
          if face.boundingBox.height * 1.25 < 150 then
            "Face too small (" ++ fmtRound (face.boundingBox.height * 1.25) ++
              "px). Move closer to the camera for better quality."
          else
            "Head size sufficient (" ++
              fmtRound (face.boundingBox.height * 1.25) ++ "px) ✓" } := rfl

/-- C6: the head-size check passes exactly when the estimated head
`boundingBox.height × 1.25` is at least 150 px; bounding-box height 120
passes and 119.99 fails. -/
theorem headSize_iff_and_boundary :
    (∀ (w h : ℝ) (face : FaceDetectionResult),
      ∃ c, (checkCompliance w h [face]).checks[1]? = some c ∧
        c.id = "head-size" ∧
        (c.passed = true ↔ 150 ≤ face.boundingBox.height * 1.25)) ∧
    (∃ c, (checkCompliance 1000 1000 [boundaryFaceHi]).checks[1]? = some c ∧
      c.passed = true) ∧
    (∃ c, (checkCompliance 1000 1000 [boundaryFaceLo]).checks[1]? = some c ∧
      c.passed = false) := by
  refine ⟨fun w h face => ⟨_, checkCompliance_single_headSize w h face, rfl, ?_⟩,
    ⟨_, checkCompliance_single_headSize 1000 1000 boundaryFaceHi, ?_⟩,
    ⟨_, checkCompliance_single_headSize 1000 1000 boundaryFaceLo, ?_⟩⟩
  · simp only [decide_eq_true_eq, ge_iff_le]
  · simp only [decide_eq_true_eq, ge_iff_le]
    norm_num [boundaryFaceHi]
  · simp only [decide_eq_false_iff_not, ge_iff_le, not_le]
    norm_num [boundaryFaceLo]

/-- In the single-face branch, the third check is the framing-margin check;
note the code derives the needed crop height from `boundingBox.height`
directly (without the 1.25 full-head factor). -/
lemma checkCompliance_single_framing (w h : ℝ) (face : FaceDetectionResult) :
    (checkCompliance w h [face]).checks[2]? = some
      { id := "eye-height"
        label := "Framing Margin"
        passed :=
          decide ((face.landmarks.leftEye.y + face.landmarks.rightEye.y) / 2 ≥
            face.boundingBox.height / 0.595 * (1 - 0.625) * 0.95) &&
          decide (h - (face.landmarks.leftEye.y + face.landmarks.rightEye.y) / 2 ≥
            (face.boundingBox.height / 0.595 -
              face.boundingBox.height / 0.595 * (1 - 0.625)) * 0.95)
        message :=
          if decide ((face.landmarks.leftEye.y + face.landmarks.rightEye.y) / 2 ≥
              face.boundingBox.height / 0.595 * (1 - 0.625) * 0.95) &&
            decide (h - (face.landmarks.leftEye.y + face.landmarks.rightEye.y) / 2 ≥
              (face.boundingBox.height / 0.595 -
                face.boundingBox.height / 0.595 * (1 - 0.625)) * 0.95) then
            "Sufficient framing margin for crop ✓"
          else if (face.landmarks.leftEye.y + face.landmarks.rightEye.y) / 2 <
              face.boundingBox.height / 0.595 * (1 - 0.625) * 0.95 then
            "Not enough space above head. Move down or step back from the camera."
          else
            "Not enough space below chin. Move up or step back from the camera." } := rfl

/-- In the single-face branch, the per-check pass flags in list order. -/
lemma checkCompliance_single_passedList (w h : ℝ) (face : FaceDetectionResult) :
    ((checkCompliance w h [face]).checks.map fun c => c.passed) =
      [true,
        decide (face.boundingBox.height * 1.25 ≥ 150),
        decide ((face.landmarks.leftEye.y + face.landmarks.rightEye.y) / 2 ≥
          face.boundingBox.height / 0.595 * (1 - 0.625) * 0.95) &&
        decide (h - (face.landmarks.leftEye.y + face.landmarks.rightEye.y) / 2 ≥
          (face.boundingBox.height / 0.595 -
            face.boundingBox.height / 0.595 * (1 - 0.625)) * 0.95),
        decide ((if |calculateAngle face.landmarks.leftEye face.landmarks.rightEye| > 90
          then 180 - |calculateAngle face.landmarks.leftEye face.landmarks.rightEye|
          else |calculateAngle face.landmarks.leftEye face.landmarks.rightEye|) ≤ 5),
        decide (|face.boundingBox.originX + face.boundingBox.width / 2 - w / 2| /
          w * 100 ≤ 10)] := rfl

/-- Folding `all` over a projection agrees with mapping it out first. -/
lemma all_eq_map_all (l : List ComplianceCheck) :
    (l.all fun c => c.passed) = ((l.map fun c => c.passed).all id) := by
  induction l with
  | nil => rfl
  | cons a t ih => simp only [List.all_cons, List.map_cons, id]; rw [ih]

/-- In the single-face branch, overall `passed` conjoins the per-check flags. -/
lemma checkCompliance_single_passed (w h : ℝ) (face : FaceDetectionResult) :
    (checkCompliance w h [face]).passed =
      (((checkCompliance w h [face]).checks.map fun c => c.passed).all id) :=
  all_eq_map_all _

/-- C1 (code side): at a 1000×700 image with `marginFace` the framing-margin
check passes in the code, while the margin condition as the spec derives it
(with the ×1.25 full-head estimate) fails — the code omits the factor. -/
theorem framingMargin_code_passes_spec_fails :
    (∃ c, (checkCompliance 1000 700 [marginFace]).checks[2]? = some c ∧
      c.id = "eye-height" ∧ c.passed = true) ∧
    ¬ specFramingMargin 700 marginFace := by
  constructor
  · refine ⟨_, checkCompliance_single_framing 1000 700 marginFace, rfl, ?_⟩
    simp only [Bool.and_eq_true, decide_eq_true_eq, ge_iff_le]
    constructor <;> norm_num [marginFace]
  · intro hs
    have h1 := hs.1
    norm_num [marginFace] at h1

/-- C8: the compliant scenario — 1000×1000 image, single centered face with
bounding-box height 300 and level eyes at y = 450 — passes all five checks
with `eyeHeightPercent = 55`. -/
theorem compliant_scenario_passes :
    (checkCompliance 1000 1000 [sampleFace]).passed = true ∧
    ((checkCompliance 1000 1000 [sampleFace]).checks.map fun c => c.passed) =
      [true, true, true, true, true] ∧
    (checkCompliance 1000 1000 [sampleFace]).metrics.eyeHeightPercent = 55 := by
  have ht : calculateAngle ({ x := 430, y := 450 } : Point)
      ({ x := 570, y := 450 } : Point) = 0 := by
    rw [calculateAngle]
    norm_num
    rw [atan2_x_pos 0 140 (by norm_num)]
    simp
  have hmap : ((checkCompliance 1000 1000 [sampleFace]).checks.map fun c => c.passed) =
      [true, true, true, true, true] := by
    rw [checkCompliance_single_passedList]
    norm_num [sampleFace, ht, decide_eq_true_eq]
  have hp : (checkCompliance 1000 1000 [sampleFace]).passed = true := by
    rw [checkCompliance_single_passed, hmap]
    rfl
  have he : (checkCompliance 1000 1000 [sampleFace]).metrics.eyeHeightPercent =
      (1000 - (450 + 450) / 2) / 1000 * 100 := rfl
  exact ⟨hp, hmap, by rw [he]; norm_num⟩

end PassportPhoto
